import Mathlib

/-!
Verification development for the voice proxy backend.

The definitions below are a shallow embedding of `src/config.py` and
`src/services/websocket_handler.py`: Python dict values become the
inductive `PyVal`, the configuration dictionary becomes an association
list built by `load_config`, the URL builders and the session-config
builder become pure Lean functions, the connector and the handler become
functions from an explicit environment (credential outcome, handshake
outcome, send outcomes) to a record of their observable effects
(returned connection, frames sent, log/console lines, close count), and
the bidirectional relay becomes a small-step scheduler over two scripted
tasks.
-/

namespace VoiceProxy

/-- Python values as they occur in the configuration dictionary and in the
JSON session payloads: strings, numbers (modelled as rationals, covering
both Python ints and the float constants of the session config), booleans,
`None`, lists and string-keyed dicts. -/
inductive PyVal where
  | str (s : String)
  | num (q : ℚ)
  | bool (b : Bool)
  | none
  | list (xs : List PyVal)
  | dict (fields : List (String × PyVal))
  deriving Repr

/-- Association-list lookup used to model `dict[key]` access returning an
optional value. Python dicts preserve insertion order; lookups return the
value of the first (unique) matching key. -/
def dlookup (k : String) : List (String × PyVal) → Option PyVal
  | [] => Option.none
  | (a, v) :: rest => if a = k then some v else dlookup k rest

/-- Model of `dict[key] = value`: replace the value of an existing key in
place, or append the new key at the end (Python insertion order). -/
def dset (fields : List (String × PyVal)) (k : String) (v : PyVal) :
    List (String × PyVal) :=
  match fields with
  | [] => [(k, v)]
  | (a, w) :: rest => if a = k then (a, v) :: rest else (a, w) :: dset rest k v

/-- Python truthiness for the values above, as used by `if not api_key` and
`if client_id` in `_connect_to_azure` and by `agent_config.get(...)`
guards: empty string, zero, `False`, `None`, empty list and empty dict are
falsy. -/
def pyTruthy : PyVal → Bool
  | .str s => s ≠ ""
  | .num q => q ≠ 0
  | .bool b => b
  | .none => false
  | .list xs => !xs.isEmpty
  | .dict fs => !fs.isEmpty

/-- Rendering of a value inside a Python f-string, as in
`f"...&agent-name={config['agent_name']}"`: `None` renders as "None",
booleans as "True"/"False", strings verbatim. Numbers render via their
decimal numerator when integral (the configuration keys interpolated into
URLs are strings or `None`, so this case is not exercised). -/
def pyStr : PyVal → String
  | .str s => s
  | .num q => toString q.num
  | .bool b => if b then "True" else "False"
  | .none => "None"
  | .list _ => "[...]"
  | .dict _ => "\x7b...\x7d"

/-! ## Configuration (`src/config.py`) -/

/-- Default constants of `src/config.py`. -/
def DEFAULT_PORT : String := "8000"

def DEFAULT_HOST : String := "0.0.0.0"

def DEFAULT_REGION : String := "swedencentral"

def DEFAULT_MODEL : String := "gpt-4o"

def DEFAULT_API_VERSION : String := "2024-07-18"

def DEFAULT_SPEECH_LANGUAGE : String := "en-US"

def DEFAULT_INPUT_TRANSCRIPTION_MODEL : String := "azure-speech"

def DEFAULT_INPUT_NOISE_REDUCTION_TYPE : String := "azure_deep_noise_suppression"

def DEFAULT_VOICE_NAME : String := "en-IN-AartiNeural"

def DEFAULT_VOICE_TYPE : String := "azure-standard"

def DEFAULT_AVATAR_CHARACTER : String := "lisa"

def DEFAULT_AVATAR_STYLE : String := "casual-sitting"

/-- An environment: what `os.getenv` returns for each variable name. -/
def Env : Type := String → Option String

/-- Model of `os.getenv(name, default)`. -/
def getenvD (env : Env) (name default : String) : String :=
  (env name).getD default

/-- Model of `Config._parse_bool_env`: `os.getenv(var, "False").lower() == "true"`. -/
def parse_bool_env (env : Env) (var : String) : Bool :=
  (getenvD env var "False").toLower = "true"

/-- Model of `Config._load_config`: the configuration dictionary, key by
key in source order. `PORT` is converted with `int(...)`; the model uses
the successful parse (a malformed `PORT` aborts the Python process while
the module loads, before any of the code under study runs). `AGENT_NAME` and
`CLIENT_ID` use `os.getenv` with no default, so they are `None` when
unset. -/
def load_config (env : Env) : List (String × PyVal) :=
  [("azure_ai_resource_name", .str (getenvD env "AZURE_AI_RESOURCE_NAME" "")),
   ("azure_ai_region", .str (getenvD env "AZURE_AI_REGION" DEFAULT_REGION)),
   ("azure_ai_project_name", .str (getenvD env "AZURE_AI_PROJECT_NAME" "")),
   ("project_endpoint", .str (getenvD env "PROJECT_ENDPOINT" "")),
   ("use_azure_ai_agents", .bool (parse_bool_env env "USE_AZURE_AI_AGENTS")),
   ("agent_id", .str (getenvD env "AGENT_ID" "")),
   ("port", .num ((getenvD env "PORT" DEFAULT_PORT).toInt?.getD 0 : ℤ)),
   ("host", .str (getenvD env "HOST" DEFAULT_HOST)),
   ("azure_openai_endpoint", .str (getenvD env "AZURE_OPENAI_ENDPOINT" "")),
   ("azure_openai_api_key", .str (getenvD env "AZURE_OPENAI_API_KEY" "")),
   ("model_deployment_name", .str (getenvD env "MODEL_DEPLOYMENT_NAME" DEFAULT_MODEL)),
   ("subscription_id", .str (getenvD env "SUBSCRIPTION_ID" "")),
   ("resource_group_name", .str (getenvD env "RESOURCE_GROUP_NAME" "")),
   ("azure_speech_key", .str (getenvD env "AZURE_SPEECH_KEY" "")),
   ("azure_speech_region", .str (getenvD env "AZURE_SPEECH_REGION" DEFAULT_REGION)),
   ("azure_speech_language", .str (getenvD env "AZURE_SPEECH_LANGUAGE" DEFAULT_SPEECH_LANGUAGE)),
   ("api_version", .str DEFAULT_API_VERSION),
   ("azure_input_transcription_model",
     .str (getenvD env "AZURE_INPUT_TRANSCRIPTION_MODEL" DEFAULT_INPUT_TRANSCRIPTION_MODEL)),
   ("azure_input_transcription_language",
     .str (getenvD env "AZURE_INPUT_TRANSCRIPTION_LANGUAGE" DEFAULT_SPEECH_LANGUAGE)),
   ("azure_input_noise_reduction_type",
     .str (getenvD env "AZURE_INPUT_NOISE_REDUCTION_TYPE" DEFAULT_INPUT_NOISE_REDUCTION_TYPE)),
   ("azure_voice_name", .str (getenvD env "AZURE_VOICE_NAME" DEFAULT_VOICE_NAME)),
   ("azure_voice_type", .str (getenvD env "AZURE_VOICE_TYPE" DEFAULT_VOICE_TYPE)),
   ("azure_avatar_character", .str (getenvD env "AZURE_AVATAR_CHARACTER" DEFAULT_AVATAR_CHARACTER)),
   ("azure_avatar_style", .str (getenvD env "AZURE_AVATAR_STYLE" DEFAULT_AVATAR_STYLE)),
   ("agent_name", (env "AGENT_NAME").elim PyVal.none PyVal.str),
   ("client_id", (env "CLIENT_ID").elim PyVal.none PyVal.str)]

/-- A configuration dictionary: the `_config` field of `Config`. -/
def Cfg : Type := List (String × PyVal)

/-- Model of `Config.__getitem__`: `self._config.get(key)` — the value if
the key is present, Python `None` otherwise; never raises. -/
def Config.getitem (c : Cfg) (key : String) : PyVal :=
  (dlookup key c).getD .none

/-- Model of `Config.get`: `self._config.get(key, default)`. -/
def Config.get (c : Cfg) (key : String) (default : PyVal) : PyVal :=
  (dlookup key c).getD default

/-! ## Constants of `src/services/websocket_handler.py` -/

def AZURE_VOICE_API_VERSION : String := "2025-10-01"

def AZURE_COGNITIVE_SERVICES_DOMAIN : String := "cognitiveservices.azure.com"

def VOICE_AGENT_ENDPOINT : String := "voice-agent/realtime"

def DEFAULT_MODALITIES : PyVal := .list [.str "text", .str "audio"]

def SESSION_UPDATE_TYPE : String := "session.update"

def PROXY_CONNECTED_TYPE : String := "proxy.connected"

def ERROR_TYPE : String := "error"

/-! ## URL building (`_build_base_azure_url`, `_build_azure_url`,
`_build_agent_specific_url`) -/

/-- Model of `VoiceProxyHandler._build_base_azure_url`. The per-request
correlation identifier `uuid.uuid4()` is passed in as an explicit
parameter `uuid`, the one source of nondeterminism of this function. -/
def build_base_azure_url (cfg : Cfg) (uuid : String) : String :=
  "wss://" ++ pyStr (Config.getitem cfg "azure_ai_resource_name") ++ "."
    ++ AZURE_COGNITIVE_SERVICES_DOMAIN ++ "/"
    ++ VOICE_AGENT_ENDPOINT ++ "?api-version=" ++ AZURE_VOICE_API_VERSION
    ++ "&x-ms-client-request-id=" ++ uuid

/-- Model of `VoiceProxyHandler._build_azure_url`, the URL builder used by
the live connect path: it appends `agent-name` and `agent-project-name`
query parameters taken from the configuration. -/
def build_azure_url (cfg : Cfg) (uuid : String) : String :=
  build_base_azure_url cfg uuid
    ++ "&agent-name=" ++ pyStr (Config.getitem cfg "agent_name")
    ++ "&agent-project-name=" ++ pyStr (Config.getitem cfg "azure_ai_project_name")

/-- Model of `VoiceProxyHandler._build_agent_specific_url` (defined in the
source but not called by the connect path): `agent-id` plus project name
for a remote (Azure) agent, `model` otherwise. `agent_id = None` renders
as "None" inside the f-string. -/
def build_agent_specific_url (cfg : Cfg) (base_url : String)
    (agent_id : Option String) (agent_config : List (String × PyVal)) : String :=
  let project_name := pyStr (Config.getitem cfg "azure_ai_project_name")
  if pyTruthy ((dlookup "is_azure_agent" agent_config).getD .none) then
    base_url ++ "&agent-id=" ++ (agent_id.getD "None")
      ++ "&agent-project-name=" ++ project_name
  else
    let model_name :=
      (dlookup "model" agent_config).getD (Config.getitem cfg "model_deployment_name")
    base_url ++ "&model=" ++ pyStr model_name

/-- Query-parameter split of a URL character list at each ampersand. -/
def paramSplit : List Char → List (List Char)
  | [] => [[]]
  | c :: rest =>
    let r := paramSplit rest
    if c = '&' then [] :: r
    else
      match r with
      | [] => [[c]]
      | g :: gs => (c :: g) :: gs

/-- Whether a URL carries a query parameter named `p` (an
ampersand-delimited component of the form p=...). -/
def hasParam (url p : String) : Bool :=
  (paramSplit url.data).any fun cs => List.isPrefixOf (p.data ++ ['=']) cs

/-! ## Session configuration (`_build_session_config`,
`_add_local_agent_config`) -/

/-- Model of `VoiceProxyHandler._build_session_config`: the literal
session-negotiation payload returned by the source, with every constant
transcribed. The method takes no agent argument; its output is the same
for every session. -/
def build_session_config : PyVal :=
  .dict
    [("type", .str "session.update"),
     ("session", .dict
       [("modalities", DEFAULT_MODALITIES),
        ("turn_detection", .dict
          [("type", .str "azure_semantic_vad"),
           ("threshold", .num (0.5 : ℚ)),
           ("prefix_padding_ms", .num 200),
           ("silence_duration_ms", .num 200),
           ("remove_filler_words", .bool true),
           ("end_of_utterance_detection", .dict
             [("model", .str "semantic_detection_v1"),
              ("threshold", .num (0.3 : ℚ)),
              ("timeout", .num (1.2 : ℚ))])]),
        ("input_audio_noise_reduction", .dict
          [("type", .str "azure_deep_noise_suppression")]),
        ("input_audio_echo_cancellation", .dict
          [("type", .str "server_echo_cancellation")]),
        ("voice", .dict
          [("name", .str "en-IN-AartiNeural"),
           ("type", .str "azure-standard"),
           ("temperature", .num 0)])])]

/-- Lookup of a key inside the "session" object of a session-config
message. -/
def sessionLookup (msg : PyVal) (key : String) : Option PyVal :=
  match msg with
  | .dict fs =>
    match dlookup "session" fs with
    | some (.dict sfs) => dlookup key sfs
    | _ => Option.none
  | _ => Option.none

/-- Model of `VoiceProxyHandler._add_local_agent_config`. The Python
method mutates `config_message["session"]` in place; the model returns the
updated message. Index accesses `config_message["session"]`,
`agent_config["instructions"]`, `agent_config["temperature"]` and
`agent_config["max_tokens"]` raise `KeyError` when missing, modelled by
`Option.none`. This method is defined in the source but not called by the
connect path. -/
def add_local_agent_config (config_message : PyVal) (cfg : Cfg)
    (agent_config : List (String × PyVal)) : Option PyVal := do
  let fs ← match config_message with
    | .dict fs => some fs
    | _ => Option.none
  let sfs ← match dlookup "session" fs with
    | some (.dict sfs) => some sfs
    | _ => Option.none
  let instructions ← dlookup "instructions" agent_config
  let temperature ← dlookup "temperature" agent_config
  let max_tokens ← dlookup "max_tokens" agent_config
  let model := (dlookup "model" agent_config).getD (Config.getitem cfg "model_deployment_name")
  let sfs := dset sfs "model" model
  let sfs := dset sfs "instructions" instructions
  let sfs := dset sfs "temperature" temperature
  let sfs := dset sfs "max_response_output_tokens" max_tokens
  some (.dict (dset fs "session" (.dict sfs)))

/-! ## Relay engine (`_handle_message_forwarding`,
`_forward_client_to_azure`, `_forward_azure_to_client`)

The two forwarding coroutines are modelled as scripted tasks driven by a
cooperative scheduler. A task's script lists the receive events that will
become available on its incoming socket, in order: `data m` (a message,
forwarded verbatim to the other side), `eos` (end of stream: `receive`
returns `None` on the client side, the `async for` loop ends on the
upstream side; the task completes normally), and `fail` (a receive or
send raises; the `except` clause swallows it and the task completes). An
exhausted script means the task is blocked in `receive` with no event
ever arriving. `asyncio.wait(..., FIRST_COMPLETED)` together with
`task.cancel()` on the pending task becomes: before every scheduler step
the loop checks whether a task has completed, and at the first completion
it cancels the still-running task and returns. -/

/-- One receive event on a relay leg. -/
inductive RecvEvent where
  | data (m : String)
  | eos
  | fail
  deriving Repr, DecidableEq

/-- Status of one forwarding task. -/
inductive TaskStatus where
  | running
  | done
  | cancelled
  deriving Repr, DecidableEq

/-- Scheduler choice: which of the two forwarding tasks runs next. -/
inductive Step where
  | client
  | azure
  deriving Repr, DecidableEq

/-- State of one relay run: the remaining scripts, the messages forwarded
so far in each direction (in order), and the two task statuses. -/
structure RelayState where
  clientScript : List RecvEvent
  azureScript : List RecvEvent
  toAzure : List String
  toClient : List String
  clientSt : TaskStatus
  azureSt : TaskStatus
  deriving Repr, DecidableEq

/-- One micro-step of the chosen forwarding task: receive the next event
and forward it (`_forward_client_to_azure` forwards client data to the
upstream socket, `_forward_azure_to_client` the reverse), complete on end
of stream, complete silently on an exception, and stay blocked when no
event is available. -/
def stepTask (s : RelayState) : Step → RelayState
  | .client =>
    match s.clientScript with
    | [] => s
    | .data m :: rest =>
      { s with clientScript := rest, toAzure := s.toAzure ++ [m] }
    | .eos :: rest => { s with clientScript := rest, clientSt := .done }
    | .fail :: rest => { s with clientScript := rest, clientSt := .done }
  | .azure =>
    match s.azureScript with
    | [] => s
    | .data m :: rest =>
      { s with azureScript := rest, toClient := s.toClient ++ [m] }
    | .eos :: rest => { s with azureScript := rest, azureSt := .done }
    | .fail :: rest => { s with azureScript := rest, azureSt := .done }

/-- Whether one of the two forwarding tasks has completed, i.e.
`asyncio.wait(..., return_when=FIRST_COMPLETED)` returns. -/
def relayFinished (s : RelayState) : Bool :=
  s.clientSt = .done || s.azureSt = .done

/-- Model of `for task in pending: task.cancel()`: every task still
running when the wait returns is cancelled. -/
def cancelPending (s : RelayState) : RelayState :=
  { s with
    clientSt := if s.clientSt = .running then .cancelled else s.clientSt,
    azureSt := if s.azureSt = .running then .cancelled else s.azureSt }

/-- Model of `_handle_message_forwarding` under a given scheduler: at
each scheduler turn, if a task has completed, the pending task is
cancelled and the relay returns; otherwise the chosen task performs one
micro-step. An exhausted schedule with both tasks still running leaves
the relay blocked (both legs waiting for traffic). -/
def relayLoop : List Step → RelayState → RelayState
  | [], s => if relayFinished s then cancelPending s else s
  | d :: rest, s =>
    if relayFinished s then cancelPending s
    else relayLoop rest (stepTask s d)

/-- Initial relay state for given scripts. -/
def relayInit (clientScript azureScript : List RecvEvent) : RelayState :=
  { clientScript := clientScript, azureScript := azureScript,
    toAzure := [], toClient := [], clientSt := .running, azureSt := .running }

/-- A full relay run from the initial state. -/
def relayRun (clientScript azureScript : List RecvEvent) (sched : List Step) :
    RelayState :=
  relayLoop sched (relayInit clientScript azureScript)

/-- Script of a client that sends the given messages and then ends its
stream. -/
def clientSends (msgs : List String) : List RecvEvent :=
  msgs.map RecvEvent.data ++ [RecvEvent.eos]

/-- Number of scheduler turns given to the client-to-upstream task. -/
def clientTurns (sched : List Step) : Nat :=
  (sched.filter (· = Step.client)).length

/-! ## Upstream connector (`_connect_to_azure`, `_send_initial_config`)

The connector's interactions with the outside world are supplied as an
explicit environment: the configuration dictionary, the freshly generated
request id, the outcome of the one credential acquisition
(`get_token(\x22https://ai.azure.com/.default\x22)`, performed by
`ManagedIdentityCredential` when a client id is configured and by
`DefaultAzureCredential` otherwise), the outcome of
`websockets.connect`, and the outcome of sending the initial session
configuration. Its observable effects are recorded: the returned
connection (or `None` after the catch-all `except`), whether a socket
was actually opened during the attempt, the frames whose send on the
upstream socket was attempted, and the ordered console/log lines
(`print` and `logger` calls). -/

/-- Outcome of an external operation: a value, or a raised exception with
its message. -/
def ExtResult (α : Type) : Type := Except String α

/-- Environment of one `_connect_to_azure` call. -/
structure ConnectEnv where
  cfg : Cfg
  uuid : String
  credential : ExtResult String
  handshake : ExtResult Unit
  initialSend : ExtResult Unit

/-- Observable result of one `_connect_to_azure` call. -/
structure ConnectResult where
  conn : Option Unit
  opened : Bool
  sentUpstream : List PyVal
  output : List String
  deriving Repr

/-- Model of `VoiceProxyHandler._connect_to_azure` together with
`_send_initial_config`, following the source's control flow line by
line. Any exception raised inside the `try` block is caught by the
catch-all `except`, which logs and returns `None`. In the
managed-identity branch the raw token is printed to the console
(`print(token.token)`), so the full token value is an output line there;
in the default-credential branch the target URL is also logged. The
`print("Initial Config Message: ", config_message)` line is recorded with
its literal prefix (the rendering of the dict carries no secret). -/
def connect_to_azure (e : ConnectEnv) : ConnectResult :=
  let azure_url := build_azure_url e.cfg e.uuid
  let api_key := Config.get e.cfg "azure_openai_api_key" .none
  if !pyTruthy api_key then
    { conn := Option.none, opened := false, sentUpstream := [],
      output := ["No API key found in configuration (azure_openai_api_key)"] }
  else
    let client_id := Config.get e.cfg "client_id" .none
    match e.credential with
    | .error m =>
      { conn := Option.none, opened := false, sentUpstream := [],
        output := ["Failed to connect to Azure: " ++ m] }
    | .ok token =>
      let credLog :=
        if pyTruthy client_id then
          [token, "Obtained agent access token"]
        else
          ["Obtained agent access token",
           "Connecting to Azure Voice API at URL: " ++ azure_url]
      match e.handshake with
      | .error m =>
        { conn := Option.none, opened := false, sentUpstream := [],
          output := credLog ++ ["Failed to connect to Azure: " ++ m] }
      | .ok _ =>
        let connectedLog := credLog ++ ["Connected to Azure Voice API with agent",
          "Initial Config Message: "]
        match e.initialSend with
        | .error m =>
          { conn := Option.none, opened := true,
            sentUpstream := [build_session_config],
            output := connectedLog ++ ["Failed to connect to Azure: " ++ m] }
        | .ok _ =>
          { conn := some (), opened := true,
            sentUpstream := [build_session_config],
            output := connectedLog
              ++ ["Sent initial session configuration to Azure Voice API"] }

/-! ## Client-side sends (`_send_message`, `_send_error`) -/

/-- A client socket's send behaviour: the outcome of `ws.send` per
serialized payload. -/
def ClientSock : Type := PyVal → ExtResult Unit

/-- Model of `VoiceProxyHandler._send_message`: the send is attempted and
any exception it raises is swallowed (`except Exception: pass`), so the
call always returns normally. -/
def send_message (sock : ClientSock) (message : PyVal) : ExtResult Unit :=
  match sock message with
  | .ok _ => .ok ()
  | .error _ => .ok ()

/-- The structured error payload built by `_send_error`. -/
def errorMessage (m : String) : PyVal :=
  .dict [("type", .str "error"), ("error", .dict [("message", .str m)])]

/-- Model of `VoiceProxyHandler._send_error`. -/
def send_error (sock : ClientSock) (m : String) : ExtResult Unit :=
  send_message sock (errorMessage m)

/-- The confirmation payload sent after a successful upstream connect. -/
def proxyConnectedMessage : PyVal :=
  .dict [("type", .str "proxy.connected"),
         ("message", .str "Connected to Azure Voice API")]

/-! ## Proxy handler (`handle_connection`) -/

/-- Environment of one `handle_connection` call: the connector
environment plus the relay scripts and schedule of the session. -/
structure HandleEnv where
  connectEnv : ConnectEnv
  clientScript : List RecvEvent
  azureScript : List RecvEvent
  sched : List Step

/-- Observable result of one `handle_connection` call: the control
payloads whose send to the client was attempted via `_send_message`
(`proxy.connected` and `error` frames, in order), the relayed traffic of
both directions, how often `azure_ws.close()` was invoked, and whether an
upstream socket was opened during the session. -/
structure HandleResult where
  ctrlMsgs : List PyVal
  relayedToClient : List String
  toAzure : List String
  closeCount : Nat
  upstreamOpened : Bool
  deriving Repr

/-- Model of `VoiceProxyHandler.handle_connection`. When the connector
returns `None`, one error frame is sent and the `finally` block sees
`azure_ws = None`, so no close happens — even if a socket was opened and
then abandoned inside `_connect_to_azure`. When the connector returns a
connection, the confirmation frame is sent, the relay runs to
completion, and the `finally` block closes the upstream connection once.
`_handle_message_forwarding` and `_send_message` never raise, so the
handler's own `except` branch is unreachable. -/
def handle_connection (e : HandleEnv) : HandleResult :=
  let c := connect_to_azure e.connectEnv
  match c.conn with
  | Option.none =>
    { ctrlMsgs := [errorMessage "Failed to connect to Azure Voice API"],
      relayedToClient := [], toAzure := [],
      closeCount := 0, upstreamOpened := c.opened }
  | some _ =>
    let r := relayRun e.clientScript e.azureScript e.sched
    { ctrlMsgs := [proxyConnectedMessage],
      relayedToClient := r.toClient, toAzure := r.toAzure,
      closeCount := 1, upstreamOpened := true }

/-- Whether an external operation raised. -/
def extFailed {α : Type} : ExtResult α → Bool
  | .error _ => true
  | .ok _ => false

/-- Lookup of a top-level key of a message dict. -/
def topLookup (msg : PyVal) (key : String) : Option PyVal :=
  match msg with
  | .dict fs => dlookup key fs
  | _ => Option.none

/-! ## Concrete fixtures -/

/-- An environment with the resource, project, agent name and API key
set, as in the repository's unit-test fixtures. -/
def envFull : Env := fun name =>
  if name = "AZURE_AI_RESOURCE_NAME" then some "test-resource"
  else if name = "AZURE_AI_PROJECT_NAME" then some "test-project"
  else if name = "AGENT_NAME" then some "my-agent"
  else if name = "AZURE_OPENAI_API_KEY" then some "key-123"
  else Option.none

/-- The same environment with a client id configured, selecting the
managed-identity credential branch. -/
def envWithClientId : Env := fun name =>
  if name = "CLIENT_ID" then some "client-123" else envFull name

/-- The empty environment: every variable unset. -/
def envEmpty : Env := fun _ => Option.none

/-- A connector environment in which every external step succeeds. -/
def connectEnvOK : ConnectEnv :=
  { cfg := load_config envFull, uuid := "u",
    credential := .ok "tok", handshake := .ok (), initialSend := .ok () }

/-- A connector environment in which the handshake succeeds but the send
of the initial session configuration raises. -/
def connectEnvSendFails : ConnectEnv :=
  { connectEnvOK with initialSend := .error "send failed" }

/-- A connector environment with no API key configured. -/
def connectEnvNoKey : ConnectEnv :=
  { connectEnvOK with cfg := load_config envEmpty }

/-- A connector environment on the managed-identity branch whose
credential acquisition yields a (stand-in) secret bearer token. -/
def connectEnvManagedId : ConnectEnv :=
  { connectEnvOK with
    cfg := load_config envWithClientId
    credential := .ok "SECRET-BEARER-TOKEN" }

/-- The agent profile of the spec's end-to-end scenario, keyed as the
source reads it (`model`, `instructions`, `temperature`, `max_tokens`). -/
def agentGpt4 : List (String × PyVal) :=
  [("model", .str "gpt-4"), ("instructions", .str "Be terse"),
   ("temperature", .num (0.2 : ℚ)), ("max_tokens", .num 500)]

/-! ## Relay lemmas -/

/-- Once a task has completed, the relay loop returns at its next turn,
with the pending task cancelled, whatever schedule remains. -/
lemma relayLoop_of_finished (sched : List Step) (s : RelayState)
    (h : relayFinished s = true) : relayLoop sched s = cancelPending s := by
  cases sched <;> simp [relayLoop, h]

@[simp] lemma clientTurns_nil : clientTurns [] = 0 := rfl

@[simp] lemma clientTurns_cons_client (rest : List Step) :
    clientTurns (Step.client :: rest) = clientTurns rest + 1 := by
  simp [clientTurns, List.filter]

@[simp] lemma clientTurns_cons_azure (rest : List Step) :
    clientTurns (Step.azure :: rest) = clientTurns rest := by
  simp [clientTurns, List.filter]

/-- From a state with both tasks running, the loop result never has a
completed task alongside a non-cancelled partner: the first completion
cancels the other side. -/
lemma relayLoop_done_cancels (sched : List Step) :
    ∀ s : RelayState, s.clientSt = .running → s.azureSt = .running →
      ((relayLoop sched s).clientSt = .done → (relayLoop sched s).azureSt = .cancelled) ∧
      ((relayLoop sched s).azureSt = .done → (relayLoop sched s).clientSt = .cancelled) := by
  induction sched with
  | nil =>
    intro s hc ha
    simp [relayLoop, relayFinished, hc, ha]
  | cons d rest ih =>
    intro s hc ha
    have hfin : relayFinished s = false := by simp [relayFinished, hc, ha]
    simp only [relayLoop, hfin, Bool.false_eq_true, if_false]
    cases d with
    | client =>
      cases hsc : s.clientScript with
      | nil =>
        have hstep : stepTask s Step.client = s := by simp [stepTask, hsc]
        rw [hstep]
        exact ih s hc ha
      | cons ev tl =>
        cases ev with
        | data m =>
          have hstep : stepTask s Step.client =
              { s with clientScript := tl, toAzure := s.toAzure ++ [m] } := by
            simp [stepTask, hsc]
          rw [hstep]
          exact ih { s with clientScript := tl, toAzure := s.toAzure ++ [m] } hc ha
        | eos =>
          have hstep : stepTask s Step.client =
              { s with clientScript := tl, clientSt := .done } := by
            simp [stepTask, hsc]
          rw [hstep, relayLoop_of_finished _ _ (by simp [relayFinished])]
          simp [cancelPending, ha]
        | fail =>
          have hstep : stepTask s Step.client =
              { s with clientScript := tl, clientSt := .done } := by
            simp [stepTask, hsc]
          rw [hstep, relayLoop_of_finished _ _ (by simp [relayFinished])]
          simp [cancelPending, ha]
    | azure =>
      cases hsc : s.azureScript with
      | nil =>
        have hstep : stepTask s Step.azure = s := by simp [stepTask, hsc]
        rw [hstep]
        exact ih s hc ha
      | cons ev tl =>
        cases ev with
        | data m =>
          have hstep : stepTask s Step.azure =
              { s with azureScript := tl, toClient := s.toClient ++ [m] } := by
            simp [stepTask, hsc]
          rw [hstep]
          exact ih { s with azureScript := tl, toClient := s.toClient ++ [m] } hc ha
        | eos =>
          have hstep : stepTask s Step.azure =
              { s with azureScript := tl, azureSt := .done } := by
            simp [stepTask, hsc]
          rw [hstep, relayLoop_of_finished _ _ (by simp [relayFinished])]
          simp [cancelPending, hc]
        | fail =>
          have hstep : stepTask s Step.azure =
              { s with azureScript := tl, azureSt := .done } := by
            simp [stepTask, hsc]
          rw [hstep, relayLoop_of_finished _ _ (by simp [relayFinished])]
          simp [cancelPending, hc]

/-- Once a relay run has detected a completion and returned, running the
scheduler further changes nothing: the cancelled direction forwards no
further message. -/
lemma relayLoop_stable (sched : List Step) :
    ∀ (s : RelayState) (extra : List Step),
      relayFinished (relayLoop sched s) = true →
      relayLoop (sched ++ extra) s = relayLoop sched s := by
  induction sched with
  | nil =>
    intro s extra h
    by_cases hs : relayFinished s = true
    · rw [relayLoop_of_finished _ _ hs]
      simp [relayLoop, hs]
    · simp only [relayLoop, Bool.not_eq_true] at h hs ⊢
      rw [hs] at h
      simp at h
      exact absurd h (by simp [hs])
  | cons d rest ih =>
    intro s extra h
    by_cases hs : relayFinished s = true
    · rw [relayLoop_of_finished _ _ hs, relayLoop_of_finished _ _ hs]
    · have hs' : relayFinished s = false := by simpa using hs
      simp only [List.cons_append, relayLoop, hs', Bool.false_eq_true, if_false] at h ⊢
      exact ih _ extra h

/-- Draining lemma: with a silent upstream and a client that sends its
messages and then ends, a schedule with enough client turns forwards
exactly those messages, completes the client task and cancels the
upstream task. -/
lemma relayLoop_drain (sched : List Step) :
    ∀ (L : List String) (s : RelayState), s.clientSt = .running → s.azureSt = .running →
      s.azureScript = [] → s.clientScript = clientSends L →
      L.length + 1 ≤ clientTurns sched →
      (relayLoop sched s).toAzure = s.toAzure ++ L ∧
      (relayLoop sched s).clientSt = .done ∧
      (relayLoop sched s).azureSt = .cancelled ∧
      (relayLoop sched s).toClient = s.toClient := by
  induction sched with
  | nil => intro L s _ _ _ _ hlen; simp at hlen
  | cons d rest ih =>
    intro L s hc ha haz hcl hlen
    have hfin : relayFinished s = false := by simp [relayFinished, hc, ha]
    simp only [relayLoop, hfin, Bool.false_eq_true, if_false]
    cases d with
    | azure =>
      have hstep : stepTask s Step.azure = s := by simp [stepTask, haz]
      rw [hstep]
      exact ih L s hc ha haz hcl (by simpa using hlen)
    | client =>
      cases L with
      | nil =>
        have hcl' : s.clientScript = [RecvEvent.eos] := by simpa [clientSends] using hcl
        have hstep : stepTask s Step.client =
            { s with clientScript := [], clientSt := .done } := by
          simp [stepTask, hcl']
        rw [hstep, relayLoop_of_finished _ _ (by simp [relayFinished])]
        simp [cancelPending, ha]
      | cons m L' =>
        have hcl' : s.clientScript = RecvEvent.data m :: clientSends L' := by
          simpa [clientSends] using hcl
        have hstep : stepTask s Step.client =
            { s with clientScript := clientSends L', toAzure := s.toAzure ++ [m] } := by
          simp [stepTask, hcl']
        rw [hstep]
        have hlen' : L'.length + 1 ≤ clientTurns rest := by
          simpa using hlen
        have h2 := ih L'
          { s with clientScript := clientSends L', toAzure := s.toAzure ++ [m] }
          hc ha haz rfl hlen'
        simpa [List.append_assoc] using h2

/-! ## Claim theorems -/

/-- C6: with no agent, the session configuration built by the source
contains every baseline field — modalities text+audio, semantic-VAD turn
detection with its fixed constants, noise reduction, echo cancellation,
and a voice object with temperature 0 — and its session object omits the
`model`, `instructions`, `temperature` and max-output-tokens keys
entirely (they are absent, not null). -/
theorem session_config_baseline_and_omitted_keys :
    topLookup build_session_config "type" = some (.str "session.update")
    ∧ sessionLookup build_session_config "modalities"
        = some (.list [.str "text", .str "audio"])
    ∧ sessionLookup build_session_config "turn_detection"
        = some (.dict
            [("type", .str "azure_semantic_vad"),
             ("threshold", .num (0.5 : ℚ)),
             ("prefix_padding_ms", .num 200),
             ("silence_duration_ms", .num 200),
             ("remove_filler_words", .bool true),
             ("end_of_utterance_detection", .dict
               [("model", .str "semantic_detection_v1"),
                ("threshold", .num (0.3 : ℚ)),
                ("timeout", .num (1.2 : ℚ))])])
    ∧ sessionLookup build_session_config "input_audio_noise_reduction"
        = some (.dict [("type", .str "azure_deep_noise_suppression")])
    ∧ sessionLookup build_session_config "input_audio_echo_cancellation"
        = some (.dict [("type", .str "server_echo_cancellation")])
    ∧ sessionLookup build_session_config "voice"
        = some (.dict [("name", .str "en-IN-AartiNeural"),
                       ("type", .str "azure-standard"),
                       ("temperature", .num 0)])
    ∧ sessionLookup build_session_config "model" = Option.none
    ∧ sessionLookup build_session_config "instructions" = Option.none
    ∧ sessionLookup build_session_config "temperature" = Option.none
    ∧ sessionLookup build_session_config "max_output_tokens" = Option.none
    ∧ sessionLookup build_session_config "max_response_output_tokens" = Option.none :=
  ⟨rfl, rfl, rfl, rfl, rfl, rfl, rfl, rfl, rfl, rfl, rfl⟩

/-- C7: in a fully successful session with the agent profile
model "gpt-4" / instructions "Be terse" / temperature 0.2 /
max output tokens 500 supplied, the first (and only) frame sent upstream
is the fixed base session configuration, whose session object lacks
`instructions`, `temperature` and `max_response_output_tokens`: the
connect path never consults the agent. The final conjunct shows that the
uncalled helper `_add_local_agent_config` would have produced exactly
the fields the claim demands. -/
theorem first_upstream_frame_ignores_agent_profile :
    (connect_to_azure connectEnvOK).sentUpstream = [build_session_config]
    ∧ topLookup build_session_config "type" = some (.str "session.update")
    ∧ sessionLookup build_session_config "instructions" = Option.none
    ∧ sessionLookup build_session_config "temperature" = Option.none
    ∧ sessionLookup build_session_config "max_response_output_tokens" = Option.none
    ∧ ∃ amended,
        add_local_agent_config build_session_config (load_config envFull) agentGpt4
          = some amended
        ∧ sessionLookup amended "instructions" = some (.str "Be terse")
        ∧ sessionLookup amended "temperature" = some (.num (0.2 : ℚ))
        ∧ sessionLookup amended "max_response_output_tokens" = some (.num 500) :=
  ⟨rfl, rfl, rfl, rfl, rfl, ⟨_, rfl, rfl, rfl, rfl⟩⟩

/-- C8: on the managed-identity branch (a client id is configured), a
successful credential acquisition prints the full bearer token to the
console (`print(token.token)`): the raw token value is one of the
connector's output lines, contradicting the redaction claim. -/
theorem managed_identity_token_printed_in_full :
    "SECRET-BEARER-TOKEN" ∈ (connect_to_azure connectEnvManagedId).output
    ∧ (connect_to_azure connectEnvManagedId).conn = some () := by
  constructor
  · exact List.mem_of_mem_head? rfl
  · rfl

/-- C10: `_send_message` (and so `_send_error`) always returns normally:
whatever the underlying client-socket send does — including raising —
the exception is swallowed, so error reporting and cleanup can never be
aborted by a broken client connection. -/
theorem send_message_swallows_send_errors (sock : ClientSock) (message : PyVal)
    (m : String) :
    send_message sock message = Except.ok ()
    ∧ send_error sock m = Except.ok () := by
  constructor
  · unfold send_message
    cases sock message <;> rfl
  · unfold send_error send_message
    cases sock (errorMessage m) <;> rfl

/-- C1: the URL built by the live connect path does not match the claimed
bit-exact shape: after the correlation identifier it appends an
`agent-name` parameter and a project-name parameter, unconditionally —
it carries no `agent-id` parameter and no `model` parameter. (The unused
`_build_agent_specific_url` would produce the claimed `agent-id` form,
as the last conjunct shows.) -/
theorem build_azure_url_uses_agent_name_not_agent_id :
    build_azure_url (load_config envFull) "u"
      = "wss://test-resource.cognitiveservices.azure.com/voice-agent/realtime?api-version=2025-10-01&x-ms-client-request-id=u&agent-name=my-agent&agent-project-name=test-project"
    ∧ hasParam (build_azure_url (load_config envFull) "u") "agent-name" = true
    ∧ hasParam (build_azure_url (load_config envFull) "u") "agent-id" = false
    ∧ hasParam (build_azure_url (load_config envFull) "u") "model" = false
    ∧ hasParam
        (build_agent_specific_url (load_config envFull)
          (build_base_azure_url (load_config envFull) "u")
          (some "agent-123") [("is_azure_agent", .bool true)])
        "agent-id" = true := by
  refine ⟨rfl, ?_, ?_, ?_, ?_⟩ <;> decide

/-- C2: the upstream connection is not closed on every exit path: when
the handshake succeeds but the send of the initial session-negotiation
payload fails, the socket was opened yet the handler's close count is
zero (the connection leaks). The last two conjuncts show the close is
performed exactly once on the ordinary relay-completion paths, including
a relay ended by an upstream-side error. -/
theorem upstream_close_skipped_when_initial_send_fails :
    (handle_connection ⟨connectEnvSendFails, [], [], []⟩).upstreamOpened = true
    ∧ (handle_connection ⟨connectEnvSendFails, [], [], []⟩).closeCount = 0
    ∧ (handle_connection
        ⟨connectEnvOK, [RecvEvent.eos], [], [Step.client]⟩).closeCount = 1
    ∧ (handle_connection
        ⟨connectEnvOK, [], [RecvEvent.fail], [Step.azure]⟩).closeCount = 1 :=
  ⟨rfl, rfl, rfl, rfl⟩

/-- C3: a client that sends its messages and then ends its stream, facing
an upstream that sends nothing, gets exactly those messages forwarded
upstream verbatim and in order, after which the relay returns with the
client task completed and the upstream-receive task cancelled (not
waited on); nothing is forwarded to the client. Holds for every
scheduler interleaving that grants the client task enough turns to drain
its stream. -/
theorem relay_forwards_client_messages_then_cancels_upstream
    (msgs : List String) (sched : List Step)
    (h : msgs.length + 1 ≤ clientTurns sched) :
    (relayRun (clientSends msgs) [] sched).toAzure = msgs
    ∧ (relayRun (clientSends msgs) [] sched).clientSt = TaskStatus.done
    ∧ (relayRun (clientSends msgs) [] sched).azureSt = TaskStatus.cancelled
    ∧ (relayRun (clientSends msgs) [] sched).toClient = [] := by
  have := relayLoop_drain sched msgs (relayInit (clientSends msgs) []) rfl rfl rfl rfl h
  simpa [relayRun, relayInit] using this

/-- Witness for C3 at a concrete two-message session. -/
theorem relay_forwards_client_messages_then_cancels_upstream_witness :
    (relayRun (clientSends ["a", "b"]) [] [Step.client, Step.azure, Step.client, Step.client]).toAzure
      = ["a", "b"]
    ∧ (relayRun (clientSends ["a", "b"]) [] [Step.client, Step.azure, Step.client, Step.client]).clientSt
      = TaskStatus.done
    ∧ (relayRun (clientSends ["a", "b"]) [] [Step.client, Step.azure, Step.client, Step.client]).azureSt
      = TaskStatus.cancelled
    ∧ (relayRun (clientSends ["a", "b"]) [] [Step.client, Step.azure, Step.client, Step.client]).toClient
      = [] :=
  relay_forwards_client_messages_then_cancels_upstream ["a", "b"]
    [Step.client, Step.azure, Step.client, Step.client] (by decide)

/-- C4: for every relay run, at the first completion of one forwarding
task the other task is cancelled (a completed client task leaves the
upstream task cancelled and vice versa), and once the relay has returned,
granting the scheduler any further turns changes nothing — in
particular, no further message of the other direction is forwarded. -/
theorem relay_first_completion_cancels_other
    (cs as : List RecvEvent) (sched extra : List Step) :
    ((relayRun cs as sched).clientSt = TaskStatus.done →
      (relayRun cs as sched).azureSt = TaskStatus.cancelled)
    ∧ ((relayRun cs as sched).azureSt = TaskStatus.done →
      (relayRun cs as sched).clientSt = TaskStatus.cancelled)
    ∧ (relayFinished (relayRun cs as sched) = true →
      relayRun cs as (sched ++ extra) = relayRun cs as sched) := by
  refine ⟨?_, ?_, ?_⟩
  · exact (relayLoop_done_cancels sched (relayInit cs as) rfl rfl).1
  · exact (relayLoop_done_cancels sched (relayInit cs as) rfl rfl).2
  · exact relayLoop_stable sched (relayInit cs as) extra

/-- Witness for C4: the upstream leg ends first; the client task is
cancelled and two further scheduler turns forward nothing more. -/
theorem relay_first_completion_cancels_other_witness :
    (relayRun [RecvEvent.data "late"] [RecvEvent.eos] [Step.azure]).clientSt
      = TaskStatus.cancelled
    ∧ relayRun [RecvEvent.data "late"] [RecvEvent.eos]
        ([Step.azure] ++ [Step.client, Step.client])
      = relayRun [RecvEvent.data "late"] [RecvEvent.eos] [Step.azure] :=
  ⟨(relay_first_completion_cancels_other [RecvEvent.data "late"] [RecvEvent.eos]
      [Step.azure] [Step.client, Step.client]).2.1 (by decide),
   (relay_first_completion_cancels_other [RecvEvent.data "late"] [RecvEvent.eos]
      [Step.azure] [Step.client, Step.client]).2.2 (by decide)⟩

/-- C5: the upstream connect returns no connection exactly when the API
key configuration is falsy, the credential acquisition raised, the
network handshake raised, or the send of the initial negotiation payload
raised; and in every such failure the handler sends the client exactly
one structured error frame of shape type "error" / error.message and
invokes no close. -/
theorem upstream_connect_failure_modes (e : ConnectEnv)
    (cs as : List RecvEvent) (sched : List Step) :
    ((connect_to_azure e).conn = Option.none ↔
      (pyTruthy (Config.get e.cfg "azure_openai_api_key" PyVal.none) = false
        ∨ extFailed e.credential = true
        ∨ extFailed e.handshake = true
        ∨ extFailed e.initialSend = true))
    ∧ ((connect_to_azure e).conn = Option.none →
      (handle_connection ⟨e, cs, as, sched⟩).ctrlMsgs
          = [errorMessage "Failed to connect to Azure Voice API"]
      ∧ (handle_connection ⟨e, cs, as, sched⟩).closeCount = 0) := by
  obtain ⟨cfg, uuid, cred, hs, snd⟩ := e
  cases hk : pyTruthy (Config.get cfg "azure_openai_api_key" PyVal.none) <;>
    cases cred <;> cases hs <;> cases snd <;>
      simp [connect_to_azure, handle_connection, extFailed, hk]

/-- Witness for C5 at the missing-API-key failure. -/
theorem upstream_connect_failure_modes_witness :
    (connect_to_azure connectEnvNoKey).conn = Option.none
    ∧ (handle_connection ⟨connectEnvNoKey, [], [], []⟩).ctrlMsgs
        = [errorMessage "Failed to connect to Azure Voice API"]
    ∧ (handle_connection ⟨connectEnvNoKey, [], [], []⟩).closeCount = 0 := by
  have T := upstream_connect_failure_modes connectEnvNoKey [] [] []
  have hconn : (connect_to_azure connectEnvNoKey).conn = Option.none :=
    T.1.mpr (Or.inl rfl)
  exact ⟨hconn, (T.2 hconn).1, (T.2 hconn).2⟩

/-- C9: configuration lookup is total — for any environment, a key absent
from the loaded dictionary yields Python `None` under `__getitem__` and
the caller-supplied default under `get`, never an error — and even with
an empty process environment every key read by the connector and the URL
builders is present in the dictionary, so those reads are all defined;
the URL builder itself produces a well-defined string from the empty
environment. -/
theorem config_lookup_total_and_reads_defined (env : Env) (key : String) (d : PyVal) :
    (dlookup key (load_config env) = Option.none →
      Config.getitem (load_config env) key = PyVal.none
      ∧ Config.get (load_config env) key d = d)
    ∧ ((dlookup "azure_ai_resource_name" (load_config envEmpty)).isSome = true
      ∧ (dlookup "azure_ai_project_name" (load_config envEmpty)).isSome = true
      ∧ (dlookup "agent_name" (load_config envEmpty)).isSome = true
      ∧ (dlookup "client_id" (load_config envEmpty)).isSome = true
      ∧ (dlookup "azure_openai_api_key" (load_config envEmpty)).isSome = true
      ∧ (dlookup "model_deployment_name" (load_config envEmpty)).isSome = true)
    ∧ build_azure_url (load_config envEmpty) "u"
      = "wss://.cognitiveservices.azure.com/voice-agent/realtime?api-version=2025-10-01&x-ms-client-request-id=u&agent-name=None&agent-project-name=" := by
  refine ⟨fun h => ?_, ⟨rfl, rfl, rfl, rfl, rfl, rfl⟩, rfl⟩
  simp [Config.getitem, Config.get, h]

/-- Witness for C9 at the empty environment and an absent key. -/
theorem config_lookup_total_and_reads_defined_witness :
    Config.getitem (load_config envEmpty) "no_such_key" = PyVal.none
    ∧ Config.get (load_config envEmpty) "no_such_key" (PyVal.str "fallback")
      = PyVal.str "fallback" :=
  (config_lookup_total_and_reads_defined envEmpty "no_such_key"
    (PyVal.str "fallback")).1 rfl

end VoiceProxy
